import Mathlib

/-!
Verification of the paystack-rs refund and subscription modules.

The Rust source is shallowly embedded: serde-derived (de)serializers become
explicit functions over a JSON value type, derive_builder builders become
record builders returning `Except`, and each endpoint operation becomes a
pure function from an abstract HTTP client to the list of HTTP requests it
issues paired with its result.
-/

namespace Paystack

/-- JSON values, mirroring `serde_json::Value`.  Numbers are modelled as
integers (no field of the embedded models is a float); objects are modelled
as association lists in key order. -/
inductive Json where
  | null : Json
  | bool (b : Bool) : Json
  | num (n : Int) : Json
  | str (s : String) : Json
  | arr (xs : List Json) : Json
  | obj (fields : List (String × Json)) : Json
deriving Repr

/-- First value bound to key `k` in an object's field list, mirroring how a
serde map visitor fills a struct slot from the first matching key. -/
def getField (fs : List (String × Json)) (k : String) : Option Json :=
  (fs.find? (fun p => p.fst == k)).map (fun p => p.snd)

/-- Decode a JSON string, as `serde` does for a Rust `String` field. -/
def decodeStr : Json → Except String String
  | .str s => .ok s
  | _ => .error "expected a string"

/-- Decode a JSON boolean. -/
def decodeBool : Json → Except String Bool
  | .bool b => .ok b
  | _ => .error "expected a boolean"

/-- Decode an unsigned integer of `bits` bits (`u32`: 32, `u64`: 64), as
serde does: negative numbers and numbers out of range are rejected. -/
def decodeUInt (bits : Nat) : Json → Except String Nat
  | .num n =>
      if 0 ≤ n ∧ n < (2 : Int) ^ bits then .ok n.toNat
      else .error "integer out of range"
  | _ => .error "expected an unsigned integer"

/-- Decode `()`, as serde does for the Rust unit type: only `null` succeeds. -/
def decodeUnit : Json → Except String Unit
  | .null => .ok ()
  | _ => .error "expected null"

/-- A required struct field: missing keys are an error, mirroring serde's
missing-field error for a non-`Option` field. -/
def reqField (dec : Json → Except String α) (fs : List (String × Json)) (k : String) :
    Except String α :=
  match getField fs k with
  | some v => dec v
  | none => .error ("missing field " ++ k)

/-- An `Option<T>` struct field: a missing key or an explicit `null` decodes
to `none`; any other value must decode as `T`. -/
def optField (dec : Json → Except String α) (fs : List (String × Json)) (k : String) :
    Except String (Option α) :=
  match getField fs k with
  | none => .ok none
  | some .null => .ok none
  | some v => (dec v).map some

/-- An `Option<T>` field carrying `#[serde(alias = alt)]`: either key name
fills the same slot. -/
def optFieldAlias (dec : Json → Except String α) (fs : List (String × Json))
    (k alt : String) : Except String (Option α) :=
  match (getField fs k).orElse (fun _ => getField fs alt) with
  | none => .ok none
  | some .null => .ok none
  | some v => (dec v).map some

/-- Decode a JSON array elementwise, as serde does for `Vec<T>`. -/
def decodeList (dec : Json → Except String α) : Json → Except String (List α)
  | .arr xs => xs.foldr (fun x acc => do
      let a ← dec x
      let rest ← acc
      pure (a :: rest)) (.ok [])
  | _ => .error "expected an array"

/-! ## Refund models (src/models/refund_models.rs) -/

/-- Request body for creating a refund (`CreateRefundRequest`). -/
structure CreateRefundRequest where
  transaction : String
  amount : Option Nat
  currency : Option String
  customer_note : Option String
  merchant_note : Option String
deriving Repr

/-- Serialize an optional string the way serde does without skip attributes:
`None` becomes `null`. -/
def optStrJson : Option String → Json
  | some s => .str s
  | none => .null

/-- Serialize an optional unsigned integer; `None` becomes `null`. -/
def optNumJson : Option Nat → Json
  | some n => .num n
  | none => .null

/-- `serde_json::to_value` on `CreateRefundRequest` (derived `Serialize`):
an object with every field, optional fields appearing as `null` when unset. -/
def CreateRefundRequest.toJson (r : CreateRefundRequest) : Json :=
  .obj [("transaction", .str r.transaction),
        ("amount", optNumJson r.amount),
        ("currency", optStrJson r.currency),
        ("customer_note", optStrJson r.customer_note),
        ("merchant_note", optStrJson r.merchant_note)]

/-- The error type produced by a derive_builder `build` call when a required
field was never set. -/
inductive BuilderError where
  | uninitializedField (name : String) : BuilderError
deriving Repr, DecidableEq

/-- `CreateRefundRequestBuilder`: every setter stores `some value`; fields
start unset.  `transaction` has no default, the four others carry
`#[builder(setter(strip_option), default)]`. -/
structure CreateRefundRequestBuilder where
  transaction : Option String := none
  amount : Option (Option Nat) := none
  currency : Option (Option String) := none
  customer_note : Option (Option String) := none
  merchant_note : Option (Option String) := none
deriving Repr

/-- derive_builder `build`: the required `transaction` field errors when
unset; the defaulted optional fields fall back to `None`. -/
def CreateRefundRequestBuilder.build (b : CreateRefundRequestBuilder) :
    Except BuilderError CreateRefundRequest :=
  match b.transaction with
  | none => .error (.uninitializedField "transaction")
  | some t =>
      .ok { transaction := t,
            amount := b.amount.getD none,
            currency := b.currency.getD none,
            customer_note := b.customer_note.getD none,
            merchant_note := b.merchant_note.getD none }

/-- Customer bank account details used when retrying a refund
(`RefundAccountDetails`). -/
structure RefundAccountDetails where
  currency : String
  account_number : String
  bank_id : String
deriving Repr

/-- Derived `Serialize` for `RefundAccountDetails`. -/
def RefundAccountDetails.toJson (d : RefundAccountDetails) : Json :=
  .obj [("currency", .str d.currency),
        ("account_number", .str d.account_number),
        ("bank_id", .str d.bank_id)]

/-- Request body for retrying a failed refund (`RetryRefundRequest`). -/
structure RetryRefundRequest where
  refund_account_details : RefundAccountDetails
deriving Repr

/-- Derived `Serialize` for `RetryRefundRequest`. -/
def RetryRefundRequest.toJson (r : RetryRefundRequest) : Json :=
  .obj [("refund_account_details", r.refund_account_details.toJson)]

/-- `RetryRefundRequestBuilder`: the single field is required. -/
structure RetryRefundRequestBuilder where
  refund_account_details : Option RefundAccountDetails := none
deriving Repr

/-- derive_builder `build` for `RetryRefundRequestBuilder`. -/
def RetryRefundRequestBuilder.build (b : RetryRefundRequestBuilder) :
    Except BuilderError RetryRefundRequest :=
  match b.refund_account_details with
  | none => .error (.uninitializedField "refund_account_details")
  | some d => .ok { refund_account_details := d }

/-- Refund data returned by create, fetch, list and retry (`RefundData`).
`transaction` is kept as a raw JSON value exactly as in the source. -/
structure RefundData where
  id : Nat
  integration : Option Nat
  domain : Option String
  transaction : Option Json
  amount : Nat
  deducted_amount : Option Nat
  currency : String
  channel : Option String
  fully_deducted : Option Bool
  refunded_by : Option String
  refunded_at : Option String
  expected_at : Option String
  customer_note : Option String
  merchant_note : Option String
  status : String
  created_at : Option String
  updated_at : Option String
deriving Repr

/-- Derived `Deserialize` for `RefundData`: `id`, `amount`, `currency` and
`status` are required; every other field is optional; `created_at` carries
`#[serde(alias = "createdAt")]` and `updated_at` carries
`#[serde(alias = "updatedAt")]`; unknown keys are ignored. -/
def decodeRefundData : Json → Except String RefundData
  | .obj fs => do
      let id ← reqField (decodeUInt 64) fs "id"
      let integration ← optField (decodeUInt 64) fs "integration"
      let domain ← optField decodeStr fs "domain"
      let transaction ← optField .ok fs "transaction"
      let amount ← reqField (decodeUInt 64) fs "amount"
      let deducted_amount ← optField (decodeUInt 64) fs "deducted_amount"
      let currency ← reqField decodeStr fs "currency"
      let channel ← optField decodeStr fs "channel"
      let fully_deducted ← optField decodeBool fs "fully_deducted"
      let refunded_by ← optField decodeStr fs "refunded_by"
      let refunded_at ← optField decodeStr fs "refunded_at"
      let expected_at ← optField decodeStr fs "expected_at"
      let customer_note ← optField decodeStr fs "customer_note"
      let merchant_note ← optField decodeStr fs "merchant_note"
      let status ← reqField decodeStr fs "status"
      let created_at ← optFieldAlias decodeStr fs "created_at" "createdAt"
      let updated_at ← optFieldAlias decodeStr fs "updated_at" "updatedAt"
      pure { id, integration, domain, transaction, amount, deducted_amount,
             currency, channel, fully_deducted, refunded_by, refunded_at,
             expected_at, customer_note, merchant_note, status,
             created_at, updated_at }
  | _ => .error "expected an object"

/-! ## Subscription models (src/models/subscription_models.rs) -/

/-- Modelled from the spec: the `Domain` model lives at the crate root and is
not under src/; the source's refund comments document its values as `live`
or `test`, serialized in lowercase. -/
inductive Domain where
  | live : Domain
  | test : Domain
deriving Repr, DecidableEq

/-- Deserializer for `Domain`: exactly the lowercase strings are accepted. -/
def decodeDomain : Json → Except String Domain
  | .str "live" => .ok .live
  | .str "test" => .ok .test
  | _ => .error "unknown domain variant"

/-- Modelled from the spec: the `Authorization` response model referenced by
`Subscription` lives at the crate root and is not under src/, and the spec
does not enumerate its fields; it is modelled as a JSON payload captured
as-is.  No claim hinges on its internal shape. -/
structure Authorization where
  raw : Json
deriving Repr

/-- Deserializer for the modelled `Authorization`: captures the value. -/
def decodeAuthorization (j : Json) : Except String Authorization :=
  .ok { raw := j }

/-- `SubscriptionStatus`: a single variant `Complete`, serialized with
`#[serde(rename_all = "lowercase")]`. -/
inductive SubscriptionStatus where
  | Complete : SubscriptionStatus
deriving Repr, DecidableEq

/-- Derived `Deserialize` for `SubscriptionStatus`: only the string
`"complete"` is accepted; anything else is an unknown variant. -/
def decodeSubscriptionStatus : Json → Except String SubscriptionStatus
  | .str "complete" => .ok .Complete
  | _ => .error "unknown variant for SubscriptionStatus"

/-- `Display` for `SubscriptionStatus`. -/
def SubscriptionStatus.display : SubscriptionStatus → String
  | .Complete => "complete"

/-- The `Subscription` response entity. -/
structure Subscription where
  customer : Nat
  plan : Nat
  integration : Nat
  domain : Domain
  start : Nat
  status : SubscriptionStatus
  quantity : Nat
  amount : Nat
  subscription_code : String
  email_token : String
  authorization : Authorization
  easy_cron_id : Option String
  cron_expression : String
  next_payment_date : String
  open_invoice : Option String
  id : Nat
  created_at : String
  updated_at : String
deriving Repr

/-- Derived `Deserialize` for `Subscription`: all fields required except the
two `Option` fields; the timestamps carry `#[serde(rename = "createdAt")]`
and `#[serde(rename = "updatedAt")]`, so only the camel-case keys fill
them. -/
def decodeSubscription : Json → Except String Subscription
  | .obj fs => do
      let customer ← reqField (decodeUInt 32) fs "customer"
      let plan ← reqField (decodeUInt 32) fs "plan"
      let integration ← reqField (decodeUInt 32) fs "integration"
      let domain ← reqField decodeDomain fs "domain"
      let start ← reqField (decodeUInt 32) fs "start"
      let status ← reqField decodeSubscriptionStatus fs "status"
      let quantity ← reqField (decodeUInt 32) fs "quantity"
      let amount ← reqField (decodeUInt 32) fs "amount"
      let subscription_code ← reqField decodeStr fs "subscription_code"
      let email_token ← reqField decodeStr fs "email_token"
      let authorization ← reqField decodeAuthorization fs "authorization"
      let easy_cron_id ← optField decodeStr fs "easy_cron_id"
      let cron_expression ← reqField decodeStr fs "cron_expression"
      let next_payment_date ← reqField decodeStr fs "next_payment_date"
      let open_invoice ← optField decodeStr fs "open_invoice"
      let id ← reqField (decodeUInt 32) fs "id"
      let created_at ← reqField decodeStr fs "createdAt"
      let updated_at ← reqField decodeStr fs "updatedAt"
      pure { customer, plan, integration, domain, start, status, quantity,
             amount, subscription_code, email_token, authorization,
             easy_cron_id, cron_expression, next_payment_date, open_invoice,
             id, created_at, updated_at }
  | _ => .error "expected an object"

/-- Request body for creating a subscription (`CreateSubscriptionRequest`). -/
structure CreateSubscriptionRequest where
  plan : String
  customer : String
  authorization : Option String
  start_date : Option String
deriving Repr

/-- Derived `Serialize` for `CreateSubscriptionRequest`. -/
def CreateSubscriptionRequest.toJson (r : CreateSubscriptionRequest) : Json :=
  .obj [("plan", .str r.plan),
        ("customer", .str r.customer),
        ("authorization", optStrJson r.authorization),
        ("start_date", optStrJson r.start_date)]

/-- `CreateSubscriptionRequestBuilder`: none of the four fields carries a
builder default, so derive_builder treats all four as required. -/
structure CreateSubscriptionRequestBuilder where
  plan : Option String := none
  customer : Option String := none
  authorization : Option (Option String) := none
  start_date : Option (Option String) := none
deriving Repr

/-- derive_builder `build` for `CreateSubscriptionRequestBuilder`: the first
unset field, in declaration order, is reported. -/
def CreateSubscriptionRequestBuilder.build (b : CreateSubscriptionRequestBuilder) :
    Except BuilderError CreateSubscriptionRequest :=
  match b.plan with
  | none => .error (.uninitializedField "plan")
  | some plan =>
    match b.customer with
    | none => .error (.uninitializedField "customer")
    | some customer =>
      match b.authorization with
      | none => .error (.uninitializedField "authorization")
      | some authorization =>
        match b.start_date with
        | none => .error (.uninitializedField "start_date")
        | some start_date => .ok { plan, customer, authorization, start_date }

/-- Query filters for listing subscriptions (`FetchSubscriptionRequest`). -/
structure FetchSubscriptionRequest where
  page : Option Nat
  per_page : Option Nat
  customer : Option Nat
  plan : Option String
deriving Repr

/-- Request body for enabling or disabling a subscription
(`UpdateSubscriptionRequest`). -/
structure UpdateSubscriptionRequest where
  token : String
  code : String
deriving Repr

/-! ## Envelope, errors and the HTTP client abstraction

These types live at the crate root, outside src/; they are modelled from the
spec and from how src/ uses them. -/

/-- Modelled from the spec: the generic response envelope (`Response<T>`,
crate root): a boolean success flag `status`, a human-readable `message`,
and the typed payload `data`, which the API may omit. -/
structure Response (α : Type) where
  status : Bool
  message : String
  data : Option α
deriving Repr

/-- Deserializer for the modelled envelope: `status` and `message` are
required, `data` is optional and decoded by the payload decoder. -/
def decodeResponse (dec : Json → Except String α) : Json → Except String (Response α)
  | .obj fs => do
      let status ← reqField decodeBool fs "status"
      let message ← reqField decodeStr fs "message"
      let data ← optField dec fs "data"
      pure { status, message, data }
  | _ => .error "expected an object"

/-- Modelled from the spec: `PaystackAPIError` (crate root) is a tagged union
with one variant per resource group, each carrying a descriptive string; the
variants listed here are the ones src/ constructs. -/
inductive PaystackAPIError where
  | Refund (msg : String) : PaystackAPIError
  | Subscription (msg : String) : PaystackAPIError
  | Charge (msg : String) : PaystackAPIError
deriving Repr, DecidableEq

/-- The raw text an HTTP call returns, factored by whether it is well-formed
JSON: `serde_json::from_str` on `json j` proceeds to typed decoding, and on
`malformed s` fails at the parse step. -/
inductive RespText where
  | json (j : Json) : RespText
  | malformed (s : String) : RespText
deriving Repr

/-- `serde_json::from_str` with a typed decoder, over the factored response
text. -/
def fromStr (dec : Json → Except String α) : RespText → Except String α
  | .json j => dec j
  | .malformed s => .error ("invalid JSON: " ++ s)

/-- Modelled from the spec: the injected `HttpClient` capability with `get`
(URL, API key, optional query pairs) and `post` (URL, API key, JSON body),
each returning raw response text or a transport error string. -/
structure HttpClient where
  get : String → String → Option (List (String × String)) → Except String RespText
  post : String → String → Json → Except String RespText

/-- One HTTP exchange as issued by an endpoint operation, recorded for the
request trace. -/
inductive HttpReq where
  | get (url key : String) (query : Option (List (String × String))) : HttpReq
  | post (url key : String) (body : Json) : HttpReq
deriving Repr

/-- Modelled from the spec: `PAYSTACK_BASE_URL` (endpoints module root, not
under src/), the documented base URL of the API. -/
def PAYSTACK_BASE_URL : String := "https://api.paystack.co"

/-- Run one GET exchange and decode the response, pairing the recorded
request with the result; both failure arms are mapped by `wrap` into a
resource error, exactly like the two `map_err` calls in the source. -/
def runGet (http : HttpClient) (url key : String)
    (query : Option (List (String × String))) (dec : Json → Except String α)
    (wrapTransport wrapDecode : String → PaystackAPIError) :
    List HttpReq × Except PaystackAPIError α :=
  ([.get url key query],
    match http.get url key query with
    | .error e => .error (wrapTransport e)
    | .ok text =>
        match fromStr dec text with
        | .error e => .error (wrapDecode e)
        | .ok v => .ok v)

/-- Run one POST exchange and decode the response, as `runGet`. -/
def runPost (http : HttpClient) (url key : String) (body : Json)
    (dec : Json → Except String α)
    (wrapTransport wrapDecode : String → PaystackAPIError) :
    List HttpReq × Except PaystackAPIError α :=
  ([.post url key body],
    match http.post url key body with
    | .error e => .error (wrapTransport e)
    | .ok text =>
        match fromStr dec text with
        | .error e => .error (wrapDecode e)
        | .ok v => .ok v)

/-! ## Refund endpoints (src/endpoints/refund.rs)

Each operation returns the list of HTTP exchanges it performed together with
its result. -/

/-- `RefundEndpoints`: API key, resource base URL, shared HTTP client. -/
structure RefundEndpoints where
  key : String
  base_url : String
  http : HttpClient

/-- `RefundEndpoints::new`. -/
def RefundEndpoints.new (key : String) (http : HttpClient) : RefundEndpoints :=
  { key := key, base_url := PAYSTACK_BASE_URL ++ "/refund", http := http }

/-- `RefundEndpoints::create_refund`: POST the serialized request to the base
URL; decode a single-entity envelope; every failure wraps into `Refund`. -/
def RefundEndpoints.create_refund (e : RefundEndpoints) (request : CreateRefundRequest) :
    List HttpReq × Except PaystackAPIError (Response RefundData) :=
  runPost e.http e.base_url e.key request.toJson
    (decodeResponse decodeRefundData) .Refund .Refund

/-- `RefundEndpoints::retry_refund`. -/
def RefundEndpoints.retry_refund (e : RefundEndpoints) (id : Nat)
    (request : RetryRefundRequest) :
    List HttpReq × Except PaystackAPIError (Response RefundData) :=
  runPost e.http (e.base_url ++ "/retry_with_customer_details/" ++ toString id)
    e.key request.toJson (decodeResponse decodeRefundData) .Refund .Refund

/-- `RefundEndpoints::list_refunds`: push each supplied filter onto the query
list in source order; pass `None` to the client when the list is empty. -/
def RefundEndpoints.list_refunds (e : RefundEndpoints)
    (transaction currency fromDate toDate : Option String)
    (per_page page : Option Nat) :
    List HttpReq × Except PaystackAPIError (Response (List RefundData)) :=
  let query : List (String × String) := []
  let query := match transaction with
    | some t => query ++ [("transaction", t)]
    | none => query
  let query := match currency with
    | some c => query ++ [("currency", c)]
    | none => query
  let query := match fromDate with
    | some f => query ++ [("from", f)]
    | none => query
  let query := match toDate with
    | some t => query ++ [("to", t)]
    | none => query
  let query := match per_page with
    | some p => query ++ [("perPage", toString p)]
    | none => query
  let query := match page with
    | some p => query ++ [("page", toString p)]
    | none => query
  runGet e.http e.base_url e.key (if query.isEmpty then none else some query)
    (decodeResponse (decodeList decodeRefundData)) .Refund .Refund

/-- `RefundEndpoints::fetch_refund`: GET `{base_url}/{id}` with no query. -/
def RefundEndpoints.fetch_refund (e : RefundEndpoints) (id : Nat) :
    List HttpReq × Except PaystackAPIError (Response RefundData) :=
  runGet e.http (e.base_url ++ "/" ++ toString id) e.key none
    (decodeResponse decodeRefundData) .Refund .Refund

/-! ## Subscription endpoints (src/endpoints/subscription.rs) -/

/-- `SubscriptionEndpoints`: API key, resource base URL, shared HTTP
client. -/
structure SubscriptionEndpoints where
  key : String
  base_url : String
  http : HttpClient

/-- `SubscriptionEndpoints::new`. -/
def SubscriptionEndpoints.new (key : String) (http : HttpClient) : SubscriptionEndpoints :=
  { key := key, base_url := PAYSTACK_BASE_URL ++ "/subscription", http := http }

/-- `SubscriptionEndpoints::create_subscription`. -/
def SubscriptionEndpoints.create_subscription (e : SubscriptionEndpoints)
    (request : CreateSubscriptionRequest) :
    List HttpReq × Except PaystackAPIError (Response Subscription) :=
  runPost e.http e.base_url e.key request.toJson
    (decodeResponse decodeSubscription) .Subscription .Subscription

/-- `SubscriptionEndpoints::list_subscriptions`: `page` defaults to 1 and
`per_page` to 50, and both are always written into the URL's query string;
`customer` and `plan` are appended only when supplied. -/
def SubscriptionEndpoints.list_subscriptions (e : SubscriptionEndpoints)
    (request : FetchSubscriptionRequest) :
    List HttpReq × Except PaystackAPIError (Response (List Subscription)) :=
  let page := request.page.getD 1
  let per_page := request.per_page.getD 50
  let url := e.base_url ++ "?perPage=" ++ toString per_page ++ "&page=" ++ toString page
  let url := match request.customer with
    | some c => url ++ "&customer=" ++ toString c
    | none => url
  let url := match request.plan with
    | some p => url ++ "&plan=" ++ p
    | none => url
  runGet e.http url e.key none
    (decodeResponse (decodeList decodeSubscription)) .Subscription .Subscription

/-- `SubscriptionEndpoints::fetch_subscription`: GET `{base_url}/{id}`. -/
def SubscriptionEndpoints.fetch_subscription (e : SubscriptionEndpoints)
    (subscription_id : String) :
    List HttpReq × Except PaystackAPIError (Response Subscription) :=
  runGet e.http (e.base_url ++ "/" ++ subscription_id) e.key none
    (decodeResponse decodeSubscription) .Subscription .Subscription

/-- `SubscriptionEndpoints::enable_subscription`: POST `{base_url}/enable`
with body `{code, token}`; the transport failure wraps into `Subscription`
but the deserialize failure wraps into `Charge`, exactly as in the source. -/
def SubscriptionEndpoints.enable_subscription (e : SubscriptionEndpoints)
    (request : UpdateSubscriptionRequest) :
    List HttpReq × Except PaystackAPIError (Response Unit) :=
  runPost e.http (e.base_url ++ "/enable") e.key
    (.obj [("code", .str request.code), ("token", .str request.token)])
    (decodeResponse decodeUnit) .Subscription .Charge

/-- `SubscriptionEndpoints::disable_subscription`: POST `{base_url}/disable`
with body `{code, token}`; deserialize failures wrap into `Charge` as in the
source. -/
def SubscriptionEndpoints.disable_subscription (e : SubscriptionEndpoints)
    (request : UpdateSubscriptionRequest) :
    List HttpReq × Except PaystackAPIError (Response Unit) :=
  runPost e.http (e.base_url ++ "/disable") e.key
    (.obj [("code", .str request.code), ("token", .str request.token)])
    (decodeResponse decodeUnit) .Subscription .Charge

/-- `SubscriptionEndpoints::generate_update_subscription_link`: POST a null
body to `{base_url}/{code}/manage/link`; deserialize failures wrap into
`Charge` as in the source. -/
def SubscriptionEndpoints.generate_update_subscription_link
    (e : SubscriptionEndpoints) (code : String) :
    List HttpReq × Except PaystackAPIError (Response String) :=
  runPost e.http (e.base_url ++ "/" ++ code ++ "/manage/link") e.key .null
    (decodeResponse decodeStr) .Subscription .Charge

/-- `SubscriptionEndpoints::send_update_subscription_link`: POST a null body
to `{base_url}/{code}/manage/email`; deserialize failures wrap into `Charge`
as in the source. -/
def SubscriptionEndpoints.send_update_subscription_link
    (e : SubscriptionEndpoints) (code : String) :
    List HttpReq × Except PaystackAPIError (Response String) :=
  runPost e.http (e.base_url ++ "/" ++ code ++ "/manage/email") e.key .null
    (decodeResponse decodeStr) .Subscription .Charge

/-! ## Spec-side description and concrete fixtures -/

/-- The query list the spec promises for `list_refunds`, stated from the
spec's words: exactly the supplied filters and no others, in the stable
order transaction, currency, from, to, perPage, page. -/
def specRefundQuery (transaction currency fromDate toDate : Option String)
    (per_page page : Option Nat) : List (String × String) :=
  (transaction.map fun v => ("transaction", v)).toList ++
  (currency.map fun v => ("currency", v)).toList ++
  (fromDate.map fun v => ("from", v)).toList ++
  (toDate.map fun v => ("to", v)).toList ++
  (per_page.map fun v => ("perPage", toString v)).toList ++
  (page.map fun v => ("page", toString v)).toList

/-- A client whose every call fails at the transport layer. -/
def stubClient : HttpClient :=
  { get := fun _ _ _ => .error "stub",
    post := fun _ _ _ => .error "stub" }

/-- A client whose every call returns response text that is not JSON. -/
def malformedClient : HttpClient :=
  { get := fun _ _ _ => .ok (.malformed "oops"),
    post := fun _ _ _ => .ok (.malformed "oops") }

/-- A client whose every call fails with a not-found transport error. -/
def notFoundClient : HttpClient :=
  { get := fun _ _ _ => .error "status code: 404 Not Found",
    post := fun _ _ _ => .error "status code: 404 Not Found" }

/-- A success envelope around a payload. -/
def envelopeJson (payload : Json) : Json :=
  .obj [("status", .bool true), ("message", .str "ok"), ("data", payload)]

/-- Minimal JSON fields of a refund: the four required keys. -/
def sampleRefundFields : List (String × Json) :=
  [("id", .num 5), ("amount", .num 100), ("currency", .str "NGN"),
   ("status", .str "processed")]

/-- The `RefundData` value `sampleRefundFields` decodes to. -/
def sampleRefundData : RefundData :=
  { id := 5, integration := none, domain := none, transaction := none,
    amount := 100, deducted_amount := none, currency := "NGN",
    channel := none, fully_deducted := none, refunded_by := none,
    refunded_at := none, expected_at := none, customer_note := none,
    merchant_note := none, status := "processed", created_at := none,
    updated_at := none }

/-- A client that always answers with a well-formed refund envelope. -/
def okRefundClient : HttpClient :=
  { get := fun _ _ _ => .ok (.json (envelopeJson (.obj sampleRefundFields))),
    post := fun _ _ _ => .ok (.json (envelopeJson (.obj sampleRefundFields))) }

/-- A client whose refund envelope payload lacks the `id` key. -/
def noIdRefundClient : HttpClient :=
  { get := fun _ _ _ => .ok (.json (envelopeJson
      (.obj [("amount", .num 1), ("currency", .str "NGN"), ("status", .str "processed")]))),
    post := fun _ _ _ => .ok (.json (envelopeJson
      (.obj [("amount", .num 1), ("currency", .str "NGN"), ("status", .str "processed")]))) }

/-- JSON fields of a subscription with a chosen status value and chosen key
names for the two timestamps. -/
def subscriptionFields (stv ck uk : String) : List (String × Json) :=
  [("customer", .num 1), ("plan", .num 2), ("integration", .num 3),
   ("domain", .str "test"), ("start", .num 4), ("status", .str stv),
   ("quantity", .num 1), ("amount", .num 5000),
   ("subscription_code", .str "SUB_abc"), ("email_token", .str "tok"),
   ("authorization", .obj []), ("cron_expression", .str "0 0 28 * *"),
   ("next_payment_date", .str "2020-02-01"), ("id", .num 9),
   (ck, .str "2020-01-01"), (uk, .str "2020-01-02")]

/-- The `Subscription` value the camel-case complete fields decode to. -/
def sampleSubscription : Subscription :=
  { customer := 1, plan := 2, integration := 3, domain := .test, start := 4,
    status := .Complete, quantity := 1, amount := 5000,
    subscription_code := "SUB_abc", email_token := "tok",
    authorization := { raw := .obj [] }, easy_cron_id := none,
    cron_expression := "0 0 28 * *", next_payment_date := "2020-02-01",
    open_invoice := none, id := 9, created_at := "2020-01-01",
    updated_at := "2020-01-02" }

/-- A client answering with a subscription envelope whose status is
`cancelled`. -/
def badStatusSubClient : HttpClient :=
  { get := fun _ _ _ => .ok (.json (envelopeJson
      (.obj (subscriptionFields "cancelled" "createdAt" "updatedAt")))),
    post := fun _ _ _ => .ok (.json (envelopeJson
      (.obj (subscriptionFields "cancelled" "createdAt" "updatedAt")))) }

/-- A client answering with an envelope that omits `data`, as the
enable/disable operations expect. -/
def emptyEnvelopeClient : HttpClient :=
  { get := fun _ _ _ => .ok (.json (.obj [("status", .bool true), ("message", .str "ok")])),
    post := fun _ _ _ => .ok (.json (.obj [("status", .bool true), ("message", .str "ok")])) }

/-- A client answering with an envelope whose payload is a string link. -/
def strEnvelopeClient : HttpClient :=
  { get := fun _ _ _ => .ok (.json (envelopeJson (.str "https://paystack.shop/manage"))),
    post := fun _ _ _ => .ok (.json (envelopeJson (.str "https://paystack.shop/manage"))) }

/-! ## Helper lemmas -/

/-- Inversion for a successful `Except` bind. -/
theorem exceptBindOk {ε α β : Type} {x : Except ε α} {f : α → Except ε β} {b : β}
    (h : x >>= f = Except.ok b) : ∃ a, x = Except.ok a ∧ f a = Except.ok b := by
  cases x with
  | error e => exact absurd h (by simp [Bind.bind, Except.bind])
  | ok a => exact ⟨a, rfl, by simpa [Bind.bind, Except.bind] using h⟩

/-- Field lookup on a cons cell: the head answers when its key matches. -/
theorem getFieldCons (k0 : String) (v0 : Json) (fs : List (String × Json)) (k : String) :
    getField ((k0, v0) :: fs) k = if (k0 == k) then some v0 else getField fs k := by
  unfold getField
  cases hk : (k0 == k) with
  | true => simp [List.find?, hk]
  | false => simp [List.find?, hk]

/-- A successful required field decode means the key was present. -/
theorem reqFieldOk {α : Type} {dec : Json → Except String α}
    {fs : List (String × Json)} {k : String} {a : α}
    (h : reqField dec fs k = Except.ok a) :
    ∃ v, getField fs k = some v ∧ dec v = Except.ok a := by
  unfold reqField at h
  cases hv : getField fs k with
  | none => rw [hv] at h; exact absurd h (by simp)
  | some v => rw [hv] at h; exact ⟨v, rfl, h⟩

/-- A successful `SubscriptionStatus` decode can only come from the string
`"complete"`. -/
theorem subscriptionStatusOkComplete {v : Json} {st : SubscriptionStatus}
    (h : decodeSubscriptionStatus v = Except.ok st) : v = Json.str "complete" := by
  unfold decodeSubscriptionStatus at h
  split at h
  · rfl
  · exact absurd h (by simp)

/-- A successful optional field decode whose key held a non-null value means
the payload decoder accepted that value. -/
theorem optFieldOkOfSome {α : Type} {dec : Json → Except String α}
    {fs : List (String × Json)} {k : String} {v : Json} {a : Option α}
    (hv : getField fs k = some v) (hnull : v ≠ Json.null)
    (h : optField dec fs k = Except.ok a) : ∃ b, dec v = Except.ok b := by
  have hred : optField dec fs k = Except.map some (dec v) := by
    unfold optField
    rw [hv]
    cases v with
    | null => exact absurd rfl hnull
    | bool b => rfl
    | num n => rfl
    | str s => rfl
    | arr xs => rfl
    | obj gs => rfl
  rw [hred] at h
  cases hd : dec v with
  | error e => rw [hd] at h; exact absurd h (by simp [Except.map])
  | ok b => exact ⟨b, rfl⟩

/-- A successful list decode means every element decoded successfully. -/
theorem decodeListOkForall {α : Type} {dec : Json → Except String α}
    {xs : List Json} {l : List α}
    (h : decodeList dec (Json.arr xs) = Except.ok l) :
    ∀ x ∈ xs, ∃ a, dec x = Except.ok a := by
  induction xs generalizing l with
  | nil => intro x hx; exact absurd hx (List.not_mem_nil x)
  | cons y ys ih =>
      intro x hx
      unfold decodeList at h
      simp only [List.foldr] at h
      obtain ⟨a, ha, h⟩ := exceptBindOk h
      obtain ⟨rest, hrest, -⟩ := exceptBindOk h
      rcases List.mem_cons.mp hx with hxy | hxs
      · exact hxy ▸ ⟨a, ha⟩
      · exact ih (l := rest) (by unfold decodeList; exact hrest) x hxs

/-- A JSON value only decodes as a `Subscription` if it is an object whose
`id`, `createdAt` and `updatedAt` keys are present and whose `status` key is
the string `"complete"`. -/
theorem decodeSubscriptionOkShape {j : Json} {s : Subscription}
    (h : decodeSubscription j = Except.ok s) :
    ∃ fs, j = Json.obj fs ∧ getField fs "id" ≠ none ∧
      getField fs "status" = some (Json.str "complete") ∧
      getField fs "createdAt" ≠ none ∧ getField fs "updatedAt" ≠ none := by
  cases j with
  | obj fs =>
      simp only [decodeSubscription] at h
      obtain ⟨customer, hcustomer, h⟩ := exceptBindOk h
      obtain ⟨plan, hplan, h⟩ := exceptBindOk h
      obtain ⟨integ, hinteg, h⟩ := exceptBindOk h
      obtain ⟨dom, hdom, h⟩ := exceptBindOk h
      obtain ⟨st0, hst0, h⟩ := exceptBindOk h
      obtain ⟨st, hst, h⟩ := exceptBindOk h
      obtain ⟨qty, hqty, h⟩ := exceptBindOk h
      obtain ⟨amt, hamt, h⟩ := exceptBindOk h
      obtain ⟨sc, hsc, h⟩ := exceptBindOk h
      obtain ⟨et, het, h⟩ := exceptBindOk h
      obtain ⟨auth, hauth, h⟩ := exceptBindOk h
      obtain ⟨eci, heci, h⟩ := exceptBindOk h
      obtain ⟨ce, hce, h⟩ := exceptBindOk h
      obtain ⟨npd, hnpd, h⟩ := exceptBindOk h
      obtain ⟨oi, hoi, h⟩ := exceptBindOk h
      obtain ⟨idv, hid, h⟩ := exceptBindOk h
      obtain ⟨ca, hca, h⟩ := exceptBindOk h
      obtain ⟨ua, hua, h⟩ := exceptBindOk h
      obtain ⟨vst, hvst, hdec⟩ := reqFieldOk hst
      obtain ⟨vid, hvid, -⟩ := reqFieldOk hid
      obtain ⟨vca, hvca, -⟩ := reqFieldOk hca
      obtain ⟨vua, hvua, -⟩ := reqFieldOk hua
      refine ⟨fs, rfl, ?_, ?_, ?_, ?_⟩
      · rw [hvid]; simp
      · rw [hvst, subscriptionStatusOkComplete hdec]
      · rw [hvca]; simp
      · rw [hvua]; simp
  | null => exact absurd h (by simp [decodeSubscription])
  | bool b => exact absurd h (by simp [decodeSubscription])
  | num n => exact absurd h (by simp [decodeSubscription])
  | str s2 => exact absurd h (by simp [decodeSubscription])
  | arr xs => exact absurd h (by simp [decodeSubscription])

/-- A JSON value only decodes as `RefundData` if it is an object whose `id`
and `status` keys are present. -/
theorem decodeRefundDataOkShape {j : Json} {r : RefundData}
    (h : decodeRefundData j = Except.ok r) :
    ∃ fs, j = Json.obj fs ∧ getField fs "id" ≠ none ∧ getField fs "status" ≠ none := by
  cases j with
  | obj fs =>
      simp only [decodeRefundData] at h
      obtain ⟨idv, hid, h⟩ := exceptBindOk h
      obtain ⟨integ, hinteg, h⟩ := exceptBindOk h
      obtain ⟨dom, hdom, h⟩ := exceptBindOk h
      obtain ⟨tx, htx, h⟩ := exceptBindOk h
      obtain ⟨amt, hamt, h⟩ := exceptBindOk h
      obtain ⟨ded, hded, h⟩ := exceptBindOk h
      obtain ⟨cur, hcur, h⟩ := exceptBindOk h
      obtain ⟨ch, hch, h⟩ := exceptBindOk h
      obtain ⟨fd, hfd, h⟩ := exceptBindOk h
      obtain ⟨rb, hrb, h⟩ := exceptBindOk h
      obtain ⟨ra, hra, h⟩ := exceptBindOk h
      obtain ⟨ea, hea, h⟩ := exceptBindOk h
      obtain ⟨cn, hcn, h⟩ := exceptBindOk h
      obtain ⟨mn, hmn, h⟩ := exceptBindOk h
      obtain ⟨st, hst, h⟩ := exceptBindOk h
      obtain ⟨vid, hvid, -⟩ := reqFieldOk hid
      obtain ⟨vst, hvst, -⟩ := reqFieldOk hst
      refine ⟨fs, rfl, ?_, ?_⟩
      · rw [hvid]; simp
      · rw [hvst]; simp
  | null => exact absurd h (by simp [decodeRefundData])
  | bool b => exact absurd h (by simp [decodeRefundData])
  | num n => exact absurd h (by simp [decodeRefundData])
  | str s2 => exact absurd h (by simp [decodeRefundData])
  | arr xs => exact absurd h (by simp [decodeRefundData])

/-- A JSON value only decodes as an envelope if it is an object and, when its
`data` key holds a non-null value, the payload decoder accepted that value. -/
theorem decodeResponseOkData {α : Type} {dec : Json → Except String α}
    {j : Json} {env : Response α} (h : decodeResponse dec j = Except.ok env) :
    ∃ fs, j = Json.obj fs ∧
      ∀ v, getField fs "data" = some v → v ≠ Json.null → ∃ a, dec v = Except.ok a := by
  cases j with
  | obj fs =>
      simp only [decodeResponse] at h
      obtain ⟨st, hst, h⟩ := exceptBindOk h
      obtain ⟨msg, hmsg, h⟩ := exceptBindOk h
      obtain ⟨dat, hdat, -⟩ := exceptBindOk h
      exact ⟨fs, rfl, fun v hv hnull => optFieldOkOfSome hv hnull hdat⟩
  | null => exact absurd h (by simp [decodeResponse])
  | bool b => exact absurd h (by simp [decodeResponse])
  | num n => exact absurd h (by simp [decodeResponse])
  | str s2 => exact absurd h (by simp [decodeResponse])
  | arr xs => exact absurd h (by simp [decodeResponse])

/-! ## Claim theorems -/

/-- Claim C1, counterexample: with no optional filters supplied,
`list_subscriptions` does not issue a request with an empty query string —
it GETs `{base}?perPage=50&page=1`, a URL that differs from the bare base
URL by a non-empty query. -/
theorem C1_counterexample_list_subscriptions_default_query :
    ((SubscriptionEndpoints.new "sk_test" stubClient).list_subscriptions
        { page := none, per_page := none, customer := none, plan := none }).fst =
      [HttpReq.get "https://api.paystack.co/subscription?perPage=50&page=1" "sk_test" none] ∧
    "https://api.paystack.co/subscription?perPage=50&page=1" ≠
      (SubscriptionEndpoints.new "sk_test" stubClient).base_url :=
  ⟨rfl, by decide⟩

/-- Claim C1, amended: `list_refunds` sends exactly the supplied filters in
the stable order transaction, currency, from, to, perPage, page, and no
query at all when none is supplied; `list_subscriptions` always writes
`perPage` (default 50) and `page` (default 1) into the URL's query string
and appends `customer` and `plan` only when supplied, in that order. -/
theorem C1_amended_list_query_parameters (e : RefundEndpoints)
    (e2 : SubscriptionEndpoints)
    (transaction currency fromDate toDate : Option String) (per_page page : Option Nat)
    (req : FetchSubscriptionRequest) :
    (e.list_refunds transaction currency fromDate toDate per_page page).fst =
      [HttpReq.get e.base_url e.key
        (if (specRefundQuery transaction currency fromDate toDate per_page page).isEmpty
         then none
         else some (specRefundQuery transaction currency fromDate toDate per_page page))] ∧
    (e2.list_subscriptions req).fst =
      [HttpReq.get (e2.base_url ++ "?perPage=" ++ toString (req.per_page.getD 50)
          ++ "&page=" ++ toString (req.page.getD 1)
          ++ (match req.customer with | some c => "&customer=" ++ toString c | none => "")
          ++ (match req.plan with | some p => "&plan=" ++ p | none => "")) e2.key none] := by
  constructor
  · cases transaction <;> cases currency <;> cases fromDate <;> cases toDate <;>
      cases per_page <;> cases page <;> rfl
  · obtain ⟨pg, pp, c, p⟩ := req
    cases c <;> cases p <;>
      simp [SubscriptionEndpoints.list_subscriptions, runGet, String.append_assoc]

/-- Claim C2: in the subscription module the deserialize-step failures of
`enable_subscription` (and likewise `disable_subscription` and the two
manage-link operations) are wrapped into the `Charge` error variant, not the
`Subscription` variant the claim requires, while the transport-step failure
of the very same operation is wrapped into `Subscription`.  Evaluated at a
concrete malformed response and at a concrete transport error. -/
theorem C2_subscription_deserialize_error_is_charge_variant :
    ((SubscriptionEndpoints.new "sk" malformedClient).enable_subscription
        { token := "tok", code := "SUB_1" }).snd =
      Except.error (PaystackAPIError.Charge "invalid JSON: oops") ∧
    ((SubscriptionEndpoints.new "sk" malformedClient).generate_update_subscription_link
        "SUB_1").snd =
      Except.error (PaystackAPIError.Charge "invalid JSON: oops") ∧
    ((SubscriptionEndpoints.new "sk" stubClient).enable_subscription
        { token := "tok", code := "SUB_1" }).snd =
      Except.error (PaystackAPIError.Subscription "stub") :=
  ⟨rfl, rfl, rfl⟩

/-- Claim C3: a builder whose required field was never set fails at `build`
with an uninitialized-field error, so no request entity is produced:
`CreateRefundRequestBuilder` without `transaction`, and
`CreateSubscriptionRequestBuilder` without `plan` or without `customer`. -/
theorem C3_builder_missing_required_field_fails
    (b : CreateRefundRequestBuilder) (b2 b3 : CreateSubscriptionRequestBuilder)
    (h : b.transaction = none) (h2 : b2.plan = none) (h3 : b3.customer = none) :
    b.build = Except.error (BuilderError.uninitializedField "transaction") ∧
    b2.build = Except.error (BuilderError.uninitializedField "plan") ∧
    ∃ err, b3.build = Except.error err := by
  refine ⟨?_, ?_, ?_⟩
  · unfold CreateRefundRequestBuilder.build; rw [h]
  · unfold CreateSubscriptionRequestBuilder.build; rw [h2]
  · unfold CreateSubscriptionRequestBuilder.build
    cases hb : b3.plan with
    | none => exact ⟨_, rfl⟩
    | some pval => rw [h3]; exact ⟨_, rfl⟩

/-- Claim C3, witness: the default (all-unset) builders fail at `build`. -/
theorem C3_builder_missing_required_field_fails_witness :
    ({} : CreateRefundRequestBuilder).build =
      Except.error (BuilderError.uninitializedField "transaction") ∧
    ({} : CreateSubscriptionRequestBuilder).build =
      Except.error (BuilderError.uninitializedField "plan") ∧
    ∃ err, ({} : CreateSubscriptionRequestBuilder).build = Except.error err :=
  C3_builder_missing_required_field_fails {} {} {} rfl rfl rfl

/-- Claim C4, counterexample: two otherwise-identical subscription payloads,
one with camel-case timestamp keys and one with snake-case keys, do not both
deserialize: `Subscription` uses `#[serde(rename = "createdAt")]`, so the
snake-case payload is rejected with a missing-field error while the
camel-case payload succeeds. -/
theorem C4_counterexample_subscription_rejects_snake_case :
    decodeSubscription (Json.obj (subscriptionFields "complete" "created_at" "updated_at")) =
      Except.error "missing field createdAt" ∧
    decodeSubscription (Json.obj (subscriptionFields "complete" "createdAt" "updatedAt")) =
      Except.ok sampleSubscription :=
  ⟨rfl, rfl⟩

/-- Claim C4, amended: for `RefundData` the aliasing holds — a payload with
`created_at` and the same payload with `createdAt` decode identically, and
likewise for `updated_at` versus `updatedAt`; for `Subscription` only the
camel-case keys are accepted: a payload without a `createdAt` key never
deserializes. -/
theorem C4_amended_timestamp_aliasing (v : Json) (fs fs2 : List (String × Json))
    (s : Subscription)
    (h1 : getField fs "created_at" = none) (h2 : getField fs "updated_at" = none)
    (h3 : getField fs2 "createdAt" = none) :
    decodeRefundData (Json.obj (("created_at", v) :: fs)) =
      decodeRefundData (Json.obj (("createdAt", v) :: fs)) ∧
    decodeRefundData (Json.obj (("updated_at", v) :: fs)) =
      decodeRefundData (Json.obj (("updatedAt", v) :: fs)) ∧
    decodeSubscription (Json.obj fs2) ≠ Except.ok s := by
  refine ⟨?_, ?_, ?_⟩
  · simp [decodeRefundData, reqField, optField, optFieldAlias, getFieldCons, h1,
      Option.orElse]
  · simp [decodeRefundData, reqField, optField, optFieldAlias, getFieldCons, h2,
      Option.orElse]
  · intro hok
    obtain ⟨gs, heq, -, -, hca, -⟩ := decodeSubscriptionOkShape hok
    injection heq with heq
    subst heq
    exact hca h3

/-- Claim C4, amended, witness: evaluated at a concrete refund payload and
the concrete snake-case subscription payload. -/
theorem C4_amended_timestamp_aliasing_witness :
    decodeRefundData (Json.obj (("created_at", Json.str "T") :: sampleRefundFields)) =
      decodeRefundData (Json.obj (("createdAt", Json.str "T") :: sampleRefundFields)) ∧
    decodeRefundData (Json.obj (("updated_at", Json.str "T") :: sampleRefundFields)) =
      decodeRefundData (Json.obj (("updatedAt", Json.str "T") :: sampleRefundFields)) ∧
    decodeSubscription (Json.obj (subscriptionFields "complete" "created_at" "updated_at")) ≠
      Except.ok sampleSubscription :=
  C4_amended_timestamp_aliasing (Json.str "T") sampleRefundFields
    (subscriptionFields "complete" "created_at" "updated_at") sampleSubscription
    rfl rfl rfl

/-- Claim C5: `fetch_refund` GETs `{base}/refund/{id}` and
`fetch_subscription` GETs `{base}/subscription/{id}`, both with no query
parameters, and a response that decodes as a single-entity envelope is
returned as that envelope. -/
theorem C5_fetch_by_id_request_shape (key sid : String) (http : HttpClient) (i : Nat)
    (e : RefundEndpoints) (j : Json) (env : Response RefundData) :
    ((RefundEndpoints.new key http).fetch_refund i).fst =
      [HttpReq.get (PAYSTACK_BASE_URL ++ "/refund/" ++ toString i) key none] ∧
    ((SubscriptionEndpoints.new key http).fetch_subscription sid).fst =
      [HttpReq.get (PAYSTACK_BASE_URL ++ "/subscription/" ++ sid) key none] ∧
    (e.http.get (e.base_url ++ "/" ++ toString i) e.key none =
        Except.ok (RespText.json j) →
      decodeResponse decodeRefundData j = Except.ok env →
      (e.fetch_refund i).snd = Except.ok env) := by
  refine ⟨rfl, rfl, fun hget hdec => ?_⟩
  simp only [RefundEndpoints.fetch_refund, runGet, hget, fromStr]
  rw [hdec]

/-- Claim C5, witness: fetching refund 1 against a client that answers with
a well-formed refund envelope GETs the expected URL and returns the decoded
envelope. -/
theorem C5_fetch_by_id_request_shape_witness :
    ((RefundEndpoints.new "k" okRefundClient).fetch_refund 1).fst =
      [HttpReq.get "https://api.paystack.co/refund/1" "k" none] ∧
    ((RefundEndpoints.new "k" okRefundClient).fetch_refund 1).snd =
      Except.ok { status := true, message := "ok", data := some sampleRefundData } :=
  ⟨(C5_fetch_by_id_request_shape "k" "s" okRefundClient 1
      (RefundEndpoints.new "k" okRefundClient)
      (envelopeJson (Json.obj sampleRefundFields))
      { status := true, message := "ok", data := some sampleRefundData }).1,
   (C5_fetch_by_id_request_shape "k" "s" okRefundClient 1
      (RefundEndpoints.new "k" okRefundClient)
      (envelopeJson (Json.obj sampleRefundFields))
      { status := true, message := "ok", data := some sampleRefundData }).2.2 rfl rfl⟩

/-- Claim C6: `enable_subscription` and `disable_subscription` POST to
`{base}/subscription/enable` and `{base}/subscription/disable` a JSON body
holding exactly the `code` and `token` fields; the two manage-link
operations POST a null body to `{base}/subscription/{code}/manage/link` and
`{base}/subscription/{code}/manage/email`; responses decode through the
empty-payload and string-payload envelopes respectively. -/
theorem C6_subscription_action_requests (key code token : String) (http : HttpClient)
    (e : SubscriptionEndpoints) (j j2 : Json) (env : Response Unit)
    (env2 : Response String) :
    ((SubscriptionEndpoints.new key http).enable_subscription
        { token := token, code := code }).fst =
      [HttpReq.post (PAYSTACK_BASE_URL ++ "/subscription/enable") key
        (Json.obj [("code", Json.str code), ("token", Json.str token)])] ∧
    ((SubscriptionEndpoints.new key http).disable_subscription
        { token := token, code := code }).fst =
      [HttpReq.post (PAYSTACK_BASE_URL ++ "/subscription/disable") key
        (Json.obj [("code", Json.str code), ("token", Json.str token)])] ∧
    ((SubscriptionEndpoints.new key http).generate_update_subscription_link code).fst =
      [HttpReq.post (PAYSTACK_BASE_URL ++ "/subscription/" ++ code ++ "/manage/link")
        key Json.null] ∧
    ((SubscriptionEndpoints.new key http).send_update_subscription_link code).fst =
      [HttpReq.post (PAYSTACK_BASE_URL ++ "/subscription/" ++ code ++ "/manage/email")
        key Json.null] ∧
    (e.http.post (e.base_url ++ "/enable") e.key
        (Json.obj [("code", Json.str code), ("token", Json.str token)]) =
          Except.ok (RespText.json j) →
      decodeResponse decodeUnit j = Except.ok env →
      (e.enable_subscription { token := token, code := code }).snd = Except.ok env) ∧
    (e.http.post (e.base_url ++ "/" ++ code ++ "/manage/link") e.key Json.null =
        Except.ok (RespText.json j2) →
      decodeResponse decodeStr j2 = Except.ok env2 →
      (e.generate_update_subscription_link code).snd = Except.ok env2) := by
  refine ⟨rfl, rfl, rfl, rfl, fun h hd => ?_, fun h hd => ?_⟩
  · simp only [SubscriptionEndpoints.enable_subscription, runPost, h, fromStr]
    rw [hd]
  · simp only [SubscriptionEndpoints.generate_update_subscription_link, runPost, h,
      fromStr]
    rw [hd]

/-- Claim C6, witness: enabling against a client that answers with an
envelope omitting `data` yields the empty-payload envelope, and generating a
manage link against a client that answers with a string payload yields the
string-payload envelope. -/
theorem C6_subscription_action_requests_witness :
    ((SubscriptionEndpoints.new "k" emptyEnvelopeClient).enable_subscription
        { token := "tok", code := "SUB_1" }).snd =
      Except.ok { status := true, message := "ok", data := none } ∧
    ((SubscriptionEndpoints.new "k" strEnvelopeClient).generate_update_subscription_link
        "SUB_1").snd =
      Except.ok { status := true, message := "ok",
                  data := some "https://paystack.shop/manage" } :=
  ⟨(C6_subscription_action_requests "k" "SUB_1" "tok" emptyEnvelopeClient
      (SubscriptionEndpoints.new "k" emptyEnvelopeClient)
      (Json.obj [("status", Json.bool true), ("message", Json.str "ok")]) Json.null
      { status := true, message := "ok", data := none }
      { status := true, message := "ok", data := none }).2.2.2.2.1 rfl rfl,
   (C6_subscription_action_requests "k" "SUB_1" "tok" strEnvelopeClient
      (SubscriptionEndpoints.new "k" strEnvelopeClient)
      Json.null (envelopeJson (Json.str "https://paystack.shop/manage"))
      { status := true, message := "ok", data := none }
      { status := true, message := "ok",
        data := some "https://paystack.shop/manage" }).2.2.2.2.2 rfl rfl⟩

/-- Claim C7: a payload only decodes as `RefundData` or as `Subscription`
when its `id` and `status` keys are present in the JSON, and an envelope
whose `data` object lacks either key makes `fetch_refund` return a `Refund`
error instead of a success envelope. -/
theorem C7_success_requires_id_and_status (e : RefundEndpoints) (i : Nat)
    (fs dfs : List (String × Json)) :
    (∀ j r, decodeRefundData j = Except.ok r →
      ∃ gs, j = Json.obj gs ∧ getField gs "id" ≠ none ∧ getField gs "status" ≠ none) ∧
    (∀ j s, decodeSubscription j = Except.ok s →
      ∃ gs, j = Json.obj gs ∧ getField gs "id" ≠ none ∧ getField gs "status" ≠ none) ∧
    (e.http.get (e.base_url ++ "/" ++ toString i) e.key none =
        Except.ok (RespText.json (Json.obj fs)) →
      getField fs "data" = some (Json.obj dfs) →
      (getField dfs "id" = none ∨ getField dfs "status" = none) →
      ∃ m, (e.fetch_refund i).snd = Except.error (PaystackAPIError.Refund m)) := by
  refine ⟨?_, ?_, fun hget hdata hmiss => ?_⟩
  · intro j r h
    exact decodeRefundDataOkShape h
  · intro j s h
    obtain ⟨gs, heq, hid, hst, -, -⟩ := decodeSubscriptionOkShape h
    exact ⟨gs, heq, hid, by rw [hst]; simp⟩
  · cases hdec : decodeResponse decodeRefundData (Json.obj fs) with
    | error err =>
        refine ⟨err, ?_⟩
        simp only [RefundEndpoints.fetch_refund, runGet, hget, fromStr]
        rw [hdec]
    | ok env =>
        exfalso
        obtain ⟨gs, heq, hdat⟩ := decodeResponseOkData hdec
        injection heq with heq
        subst heq
        obtain ⟨a, ha⟩ := hdat _ hdata (fun hv => Json.noConfusion hv)
        obtain ⟨gs2, heq2, hid2, hst2⟩ := decodeRefundDataOkShape ha
        injection heq2 with heq2
        subst heq2
        rcases hmiss with hm | hm
        · exact hid2 hm
        · exact hst2 hm

/-- Claim C7, witness: concrete decodable payloads carry `id` and `status`,
and fetching against a client whose payload lacks `id` yields a `Refund`
error. -/
theorem C7_success_requires_id_and_status_witness :
    (∃ gs, Json.obj sampleRefundFields = Json.obj gs ∧
      getField gs "id" ≠ none ∧ getField gs "status" ≠ none) ∧
    (∃ gs, Json.obj (subscriptionFields "complete" "createdAt" "updatedAt") =
        Json.obj gs ∧
      getField gs "id" ≠ none ∧ getField gs "status" ≠ none) ∧
    (∃ m, ((RefundEndpoints.new "k" noIdRefundClient).fetch_refund 1).snd =
      Except.error (PaystackAPIError.Refund m)) :=
  ⟨(C7_success_requires_id_and_status (RefundEndpoints.new "k" noIdRefundClient) 1
      [] []).1 (Json.obj sampleRefundFields) sampleRefundData rfl,
   (C7_success_requires_id_and_status (RefundEndpoints.new "k" noIdRefundClient) 1
      [] []).2.1 (Json.obj (subscriptionFields "complete" "createdAt" "updatedAt"))
      sampleSubscription rfl,
   (C7_success_requires_id_and_status (RefundEndpoints.new "k" noIdRefundClient) 1
      [("status", Json.bool true), ("message", Json.str "ok"),
       ("data", Json.obj [("amount", Json.num 1), ("currency", Json.str "NGN"),
                          ("status", Json.str "processed")])]
      [("amount", Json.num 1), ("currency", Json.str "NGN"),
       ("status", Json.str "processed")]).2.2 rfl rfl (Or.inl rfl)⟩

/-- Claim C8: every endpoint operation records exactly one HTTP exchange,
whatever its inputs and whatever the client answers — no retries and no
additional calls; serialization of the embedded request bodies is total, so
the zero-call arm of the claim never arises. -/
theorem C8_single_http_exchange (e : RefundEndpoints) (e2 : SubscriptionEndpoints)
    (r : CreateRefundRequest) (rr : RetryRefundRequest) (cs : CreateSubscriptionRequest)
    (fsr : FetchSubscriptionRequest) (us : UpdateSubscriptionRequest)
    (t c f g : Option String) (pp pg : Option Nat) (i : Nat) (sid code : String) :
    (e.create_refund r).fst.length = 1 ∧
    (e.retry_refund i rr).fst.length = 1 ∧
    (e.list_refunds t c f g pp pg).fst.length = 1 ∧
    (e.fetch_refund i).fst.length = 1 ∧
    (e2.create_subscription cs).fst.length = 1 ∧
    (e2.list_subscriptions fsr).fst.length = 1 ∧
    (e2.fetch_subscription sid).fst.length = 1 ∧
    (e2.enable_subscription us).fst.length = 1 ∧
    (e2.disable_subscription us).fst.length = 1 ∧
    (e2.generate_update_subscription_link code).fst.length = 1 ∧
    (e2.send_update_subscription_link code).fst.length = 1 :=
  ⟨rfl, rfl, rfl, rfl, rfl, rfl, rfl, rfl, rfl, rfl, rfl⟩

/-- Claim C9: `fetch_refund` is total over every client behavior — a
transport error, a response that is not JSON, and a response that fails to
decode as a refund envelope each produce a `Refund` error value carrying the
underlying description, never a panic. -/
theorem C9_fetch_refund_returns_error_never_panics (e : RefundEndpoints) (i : Nat)
    (m s2 d : String) (j : Json) :
    (e.http.get (e.base_url ++ "/" ++ toString i) e.key none = Except.error m →
      (e.fetch_refund i).snd = Except.error (PaystackAPIError.Refund m)) ∧
    (e.http.get (e.base_url ++ "/" ++ toString i) e.key none =
        Except.ok (RespText.malformed s2) →
      (e.fetch_refund i).snd =
        Except.error (PaystackAPIError.Refund ("invalid JSON: " ++ s2))) ∧
    (e.http.get (e.base_url ++ "/" ++ toString i) e.key none =
        Except.ok (RespText.json j) →
      decodeResponse decodeRefundData j = Except.error d →
      (e.fetch_refund i).snd = Except.error (PaystackAPIError.Refund d)) := by
  refine ⟨fun h => ?_, fun h => ?_, fun h hd => ?_⟩
  · simp only [RefundEndpoints.fetch_refund, runGet, h]
  · simp only [RefundEndpoints.fetch_refund, runGet, h, fromStr]
  · simp only [RefundEndpoints.fetch_refund, runGet, h, fromStr]
    rw [hd]

/-- Claim C9, witness: fetching a non-existent id against a client that
answers 404 yields a `Refund` error carrying the 404 description. -/
theorem C9_fetch_refund_returns_error_never_panics_witness :
    ((RefundEndpoints.new "k" notFoundClient).fetch_refund 0).snd =
      Except.error (PaystackAPIError.Refund "status code: 404 Not Found") :=
  (C9_fetch_refund_returns_error_never_panics (RefundEndpoints.new "k" notFoundClient)
    0 "status code: 404 Not Found" "" "" Json.null).1 rfl

/-- Claim C10: `"complete"` is the only status string the `Subscription`
model accepts — a payload whose `status` is any other string never decodes,
every element of a successfully decoded list has status `"complete"`, and
`fetch_subscription` returns a `Subscription` error when the envelope's
payload carries a non-complete status. -/
theorem C10_subscription_status_only_complete (e : SubscriptionEndpoints)
    (sid : String) (fs dfs : List (String × Json)) (stv : String) (s : Subscription) :
    (∀ gs t, getField gs "status" = some (Json.str t) → t ≠ "complete" →
      decodeSubscription (Json.obj gs) ≠ Except.ok s) ∧
    (∀ xs l, decodeList decodeSubscription (Json.arr xs) = Except.ok l →
      ∀ x ∈ xs, ∃ gs, x = Json.obj gs ∧
        getField gs "status" = some (Json.str "complete")) ∧
    (e.http.get (e.base_url ++ "/" ++ sid) e.key none =
        Except.ok (RespText.json (Json.obj fs)) →
      getField fs "data" = some (Json.obj dfs) →
      getField dfs "status" = some (Json.str stv) → stv ≠ "complete" →
      ∃ m, (e.fetch_subscription sid).snd =
        Except.error (PaystackAPIError.Subscription m)) := by
  have hnotok : ∀ (gs : List (String × Json)) (t : String) (s2 : Subscription),
      getField gs "status" = some (Json.str t) → t ≠ "complete" →
      decodeSubscription (Json.obj gs) ≠ Except.ok s2 := by
    intro gs t s2 hst hne hok
    obtain ⟨gs2, heq, -, hstc, -, -⟩ := decodeSubscriptionOkShape hok
    injection heq with heq
    subst heq
    rw [hst] at hstc
    injection hstc with hstc
    injection hstc with hstc
    exact hne hstc
  refine ⟨fun gs t hst hne => hnotok gs t s hst hne, ?_, fun hget hdata hst hne => ?_⟩
  · intro xs l hl x hx
    obtain ⟨a, ha⟩ := decodeListOkForall hl x hx
    obtain ⟨gs, heq, -, hstc, -, -⟩ := decodeSubscriptionOkShape ha
    exact ⟨gs, heq, hstc⟩
  · cases hdec : decodeResponse decodeSubscription (Json.obj fs) with
    | error err =>
        refine ⟨err, ?_⟩
        simp only [SubscriptionEndpoints.fetch_subscription, runGet, hget, fromStr]
        rw [hdec]
    | ok env =>
        exfalso
        obtain ⟨gs, heq, hdat⟩ := decodeResponseOkData hdec
        injection heq with heq
        subst heq
        obtain ⟨a, ha⟩ := hdat _ hdata (fun hv => Json.noConfusion hv)
        exact hnotok dfs stv a hst hne ha

/-- Claim C10, witness: the concrete `cancelled` payload never decodes, and
fetching against a client that answers with it yields a `Subscription`
error. -/
theorem C10_subscription_status_only_complete_witness :
    decodeSubscription (Json.obj (subscriptionFields "cancelled" "createdAt" "updatedAt")) ≠
      Except.ok sampleSubscription ∧
    (∃ m, ((SubscriptionEndpoints.new "k" badStatusSubClient).fetch_subscription
        "SUB_1").snd =
      Except.error (PaystackAPIError.Subscription m)) :=
  ⟨(C10_subscription_status_only_complete
      (SubscriptionEndpoints.new "k" badStatusSubClient) "SUB_1" [] [] "x"
      sampleSubscription).1
      (subscriptionFields "cancelled" "createdAt" "updatedAt") "cancelled" rfl
      (by decide),
   (C10_subscription_status_only_complete
      (SubscriptionEndpoints.new "k" badStatusSubClient) "SUB_1"
      [("status", Json.bool true), ("message", Json.str "ok"),
       ("data", Json.obj (subscriptionFields "cancelled" "createdAt" "updatedAt"))]
      (subscriptionFields "cancelled" "createdAt" "updatedAt") "cancelled"
      sampleSubscription).2.2 rfl rfl rfl (by decide)⟩

end Paystack
